import Mathlib

/-!
# StressTest/connection.go: the single-connection echo test

A shallow embedding of `DoConnectionTest` (src/StressTest/connection.go).

The Go function runs two goroutines: the caller, which dials, writes the
script, waits, writes the close message and waits again; and a receiver, which
loops over `c.ReadMessage()`.  They communicate through the channels `done`
(buffered, capacity 1, closed by a deferred call when the receiver returns) and
`received` (closed when the whole script has been matched), and through the
field `res.FirstRoundtripLatency`.

* The receiver is a state machine: `receiverStep` is one iteration of its
  `for` loop, fed with the result of one `c.ReadMessage()` call.
* The caller is sequential.  Everything outside the program is gathered in an
  `Env`: the result of the dial, of each write, the clock readings, and the
  inbound stream, cut in three by the instants at which the caller reaches its
  two `select` statements and at which their timers fire.
* Instants and durations are integers (nanoseconds).  A run lasts a few
  seconds, so the 64-bit range of `time.Duration` is never approached.
-/

namespace StressTest

/-! ## Data model -/

/-- One byte of a payload (`byte`). -/
abbrev Byte := Fin 256

/-- `websocket.TextMessage`. -/
def TextMessage : Int := 1

/-- `websocket.BinaryMessage`. -/
def BinaryMessage : Int := 2

/-- `websocket.CloseMessage`. -/
def CloseMessage : Int := 8

/-- `websocket.CloseNormalClosure`. -/
def CloseNormalClosure : Int := 1000

/-- `TestPacket`: a single packet that is sent to the server and is expected
to be looped back.  The field `Type` of the source is spelled `Type_`. -/
structure TestPacket where
  Type_ : Int
  Payload : List Byte
deriving DecidableEq, Repr

/-- `TestOptions`: the parameters of a single connection test. -/
structure TestOptions where
  URL : String
  Packets : List TestPacket
deriving DecidableEq, Repr

/-- `TestResult`: the measured values of a single connection test. -/
structure TestResult where
  TotalDuration : Int
  ConnectLatency : Int
  FirstRoundtripLatency : Int
  FullRoundtripLatency : Int
  DisconnectLatency : Int
deriving DecidableEq, Repr

/-- Go `error` values that flow through the function: a
`*websocket.CloseError` with its code, or any other error, identified by its
message (`fmt.Errorf`, dial, read and write errors). -/
inductive GoError where
  | closeError (Code : Int) (Text : String)
  | errorString (s : String)
deriving DecidableEq, Repr

/-- The result of one `c.ReadMessage()` call: a message with its type and
payload, or an error. -/
inductive ReadResult where
  | message (mType : Int) (message : List Byte)
  | failure (err : GoError)
deriving DecidableEq, Repr

/-- `bytes.Compare`: lexicographic comparison of two byte slices, with result
-1, 0 or 1. -/
def bytesCompare : List Byte → List Byte → Int
  | [], [] => 0
  | [], _ :: _ => -1
  | _ :: _, [] => 1
  | a :: as, b :: bs =>
    if a < b then -1 else if b < a then 1 else bytesCompare as bs

/-- The readings of the five `time.Now()` calls of `DoConnectionTest`, in
program order (lines 37, 47, 92, 116 and 130).  Each call site runs at most
once in a run. -/
structure Clock where
  startTime : Int
  connected : Int
  firstMatch : Int
  allReceived : Int
  closed : Int
deriving DecidableEq, Repr

/-! ## The receiver goroutine -/

/-- Run-time panics the receiver loop could raise. -/
inductive Fault where
  | indexOutOfRange
  | closeOfClosedChannel
deriving DecidableEq, Repr

/-- State of the receiver goroutine between two iterations of its loop.
`accessed` and `closes` are ghost fields: the indices at which `opt.Packets`
has been indexed so far, in order, and the number of times `close(received)`
has been executed. -/
structure Receiver where
  index : Nat
  running : Bool
  done : Option GoError
  doneClosed : Bool
  received : Bool
  FirstRoundtripLatency : Int
  fault : Option Fault
  accessed : List Nat
  closes : Nat
deriving DecidableEq, Repr

/-- The receiver when the goroutine is started: `index := 0`, both channels
open and empty, `res.FirstRoundtripLatency` still zero. -/
def Receiver.start : Receiver :=
  { index := 0, running := true, done := none, doneClosed := false,
    received := false, FirstRoundtripLatency := 0, fault := none, accessed := [],
    closes := 0 }

/-- The test `closeErr, ok := err.(*websocket.CloseError); ok &&
closeErr.Code == websocket.CloseNormalClosure`. -/
def isNormalClosure : GoError → Bool
  | .closeError Code _ => Code == CloseNormalClosure
  | .errorString _ => false

/-- `fmt.Errorf("Received more packets that expected")`. -/
def errMorePackets : GoError := .errorString "Received more packets that expected"

/-- `fmt.Errorf("Received unexpected packet type")`. -/
def errPacketType : GoError := .errorString "Received unexpected packet type"

/-- `fmt.Errorf("Received unexpected packet payload")`. -/
def errPacketPayload : GoError := .errorString "Received unexpected packet payload"

/-- `fmt.Errorf("Receive timeout. Not all packets were received in time")`. -/
def errReceiveTimeout : GoError :=
  .errorString "Receive timeout. Not all packets were received in time"

/-- `fmt.Errorf("Closure timeout")`. -/
def errClosureTimeout : GoError := .errorString "Closure timeout"

/-- The goroutine returns after `done <- err`; the deferred `close(done)`
runs. -/
def Receiver.fail (st : Receiver) (err : GoError) : Receiver :=
  { st with running := false, done := some err, doneClosed := true }

/-- The goroutine returns without sending; the deferred `close(done)` runs. -/
def Receiver.stop (st : Receiver) : Receiver :=
  { st with running := false, doneClosed := true }

/-- The goroutine panics; the deferred `close(done)` runs while unwinding. -/
def Receiver.panic (st : Receiver) (f : Fault) : Receiver :=
  { st with running := false, doneClosed := true, fault := some f }

/-- One iteration of the receiver loop (lines 56 to 100), given the result
`r` of `c.ReadMessage()`.  `ConnectLatency` is `res.ConnectLatency`, written by
the caller before the goroutine starts. -/
def receiverStep (opt : TestOptions) (clock : Clock) (ConnectLatency : Int)
    (st : Receiver) (r : ReadResult) : Receiver :=
  match r with
  | .failure err =>
    -- Ignore error if the connection closed due to normal closure.
    if isNormalClosure err then st.stop else st.fail err
  | .message mType message =>
    -- Check if the amount is not over the expected packet amount.
    if st.index ≥ opt.Packets.length then st.fail errMorePackets
    else
      -- Get next expected packet.
      let st := { st with accessed := st.accessed ++ [st.index] }
      match opt.Packets[st.index]? with
      | none => st.panic .indexOutOfRange
      | some expectedPacket =>
        let st := { st with index := st.index + 1 }
        -- Check if the packet type is correct.
        if expectedPacket.Type_ ≠ mType then st.fail errPacketType
        -- Check if the payload is correct.
        else if bytesCompare expectedPacket.Payload message ≠ 0 then
          st.fail errPacketPayload
        else
          -- Measure roundtrip time of the first packet.
          let st :=
            if st.index = 1 then
              { st with FirstRoundtripLatency :=
                  clock.firstMatch - clock.startTime - ConnectLatency }
            else st
          -- Signal that everything expected has been received.
          if st.index = opt.Packets.length then
            let st := { st with closes := st.closes + 1 }
            if st.received then st.panic .closeOfClosedChannel
            else { st with received := true }
          else st

/-- The goroutine handles a read result only while it is still in its loop. -/
def receiverNext (opt : TestOptions) (clock : Clock) (ConnectLatency : Int)
    (st : Receiver) (r : ReadResult) : Receiver :=
  if st.running then receiverStep opt clock ConnectLatency st r else st

/-- The receiver after it has handled the read results `reads`, in order. -/
def receiverRun (opt : TestOptions) (clock : Clock) (ConnectLatency : Int)
    (st : Receiver) (reads : List ReadResult) : Receiver :=
  reads.foldl (receiverNext opt clock ConnectLatency) st

/-- The read result a correctly echoing server produces for a packet. -/
def echo (p : TestPacket) : ReadResult := .message p.Type_ p.Payload

/-! ## The calling goroutine -/

/-- Everything `DoConnectionTest` gets from outside.

* `dialErr`: the error of `websocket.DefaultDialer.Dial`.
* `writeErr i`: the error of the `i`-th `c.WriteMessage` call (the packets are
  calls `0 .. len(opt.Packets) - 1`, the close message is call
  `len(opt.Packets)`).
* `early`: the read results the receiver has handled when the caller leaves
  the send loop.
* `wait1`: the read results that follow, up to the instant the timer of the
  first `select` fires.
* `wait2`: the read results that follow those, up to the instant the timer of
  the second `select` fires.
* `pickDone`: the choice of the Go runtime when the caller enters the first
  `select` with both `done` and `received` ready. -/
structure Env where
  clock : Clock
  dialErr : Option GoError
  writeErr : Nat → Option GoError
  early : List ReadResult
  wait1 : List ReadResult
  wait2 : List ReadResult
  pickDone : Bool

/-- The `return` statement (or panic) through which a run ends. -/
inductive Exit where
  | dialFailed
  | sendFailed
  | receiverReport
  | receiveTimeout
  | closeSendFailed
  | closureObserved
  | closureTimeout
  | crashed
deriving DecidableEq, Repr

/-- What a run yields: the returned pair `(res, err)` and, as ghost
information, the exit taken. -/
structure Outcome where
  res : TestResult
  err : Option GoError
  exit : Exit
deriving DecidableEq, Repr

/-- The send loop (lines 104 to 109): the error of the first failing write,
if any.  `i` is the number of `WriteMessage` calls made before. -/
def sendPackets (writeErr : Nat → Option GoError) : Nat → List TestPacket → Option GoError
  | _, [] => none
  | i, _ :: ps =>
    match writeErr i with
    | some err => some err
    | none => sendPackets writeErr (i + 1) ps

/-- A receive from `done` can proceed: a value is buffered or the channel is
closed. -/
def doneReady (st : Receiver) : Bool := st.done.isSome || st.doneClosed

/-- The case a `select` statement takes. -/
inductive Ready where
  | done
  | received
  | timeout
deriving DecidableEq, Repr

/-- The first `select` (lines 112 to 119).  On entry the timer has just been
created; if a channel is ready a ready case is taken, at random when both are.
Otherwise the caller blocks while the receiver handles `reads` one by one, and
takes the case that becomes ready first; when `reads` runs out, the timer
fires.  The result carries the receiver at that instant and the read results
not handled yet. -/
def firstSelect (step : Receiver → ReadResult → Receiver) (pickDone : Bool) :
    Receiver → List ReadResult → Ready × Receiver × List ReadResult
  | st, reads =>
    if doneReady st && st.received then
      (if pickDone then .done else .received, st, reads)
    else if doneReady st then (.done, st, reads)
    else if st.received then (.received, st, reads)
    else
      match reads with
      | [] => (.timeout, st, [])
      | r :: rs => firstSelect step pickDone (step st r) rs

/-- The second `select` (lines 128 to 135): the receiver at the instant
`done` becomes ready, or `none` when the timer fires first. -/
def secondSelect (step : Receiver → ReadResult → Receiver) :
    Receiver → List ReadResult → Option Receiver
  | st, reads =>
    if doneReady st then some st
    else
      match reads with
      | [] => none
      | r :: rs => secondSelect step (step st r) rs

/-- A `return res, err` of the caller while the receiver is in state `st`:
`res.FirstRoundtripLatency` holds what the receiver has stored so far.  A
panic of the receiver ends the process instead. -/
def leave (st : Receiver) (res : TestResult) (err : Option GoError) (exit : Exit) : Outcome :=
  if st.fault.isSome then
    { res := res, err := none, exit := .crashed }
  else
    { res := { res with FirstRoundtripLatency := st.FirstRoundtripLatency },
      err := err, exit := exit }

/-- `DoConnectionTest` (lines 36 to 136). -/
def DoConnectionTest (opt : TestOptions) (env : Env) : Outcome :=
  let res : TestResult :=
    { TotalDuration := 0, ConnectLatency := 0, FirstRoundtripLatency := 0,
      FullRoundtripLatency := 0, DisconnectLatency := 0 }
  -- Open connection.
  match env.dialErr with
  | some err => { res := res, err := some err, exit := .dialFailed }
  | none =>
    let res := { res with ConnectLatency := env.clock.connected - env.clock.startTime }
    -- Receive data and/or handle errors or disconnects.
    let step := receiverNext opt env.clock res.ConnectLatency
    let st := receiverRun opt env.clock res.ConnectLatency Receiver.start env.early
    -- Send payload.
    match sendPackets env.writeErr 0 opt.Packets with
    | some err => leave st res (some err) .sendFailed
    | none =>
      -- Wait until all the data was received, an error, or a timeout.
      match firstSelect step env.pickDone st env.wait1 with
      | (.done, st, _) => leave st res st.done .receiverReport
      | (.timeout, st, _) => leave st res (some errReceiveTimeout) .receiveTimeout
      | (.received, st, rest) =>
        let res := { res with FullRoundtripLatency :=
          env.clock.allReceived - env.clock.startTime - res.ConnectLatency }
        -- Cleanly close connection.
        match env.writeErr opt.Packets.length with
        | some err => leave st res (some err) .closeSendFailed
        | none =>
          -- Wait until the connection is closed by the server, or a timeout.
          match secondSelect step st (rest ++ env.wait2) with
          | some st =>
            let res := { res with DisconnectLatency :=
              env.clock.closed - env.clock.startTime - res.FullRoundtripLatency }
            let res := { res with TotalDuration :=
              res.ConnectLatency + res.FullRoundtripLatency + res.DisconnectLatency }
            leave st res st.done .closureObserved
          | none => leave st res (some errClosureTimeout) .closureTimeout

/-- The run got as far as the Closing phase (the close message was about to be
written). -/
def Exit.reachedClosing : Exit → Bool
  | .closeSendFailed => true
  | .closureObserved => true
  | .closureTimeout => true
  | _ => false

/-! ## Concrete scripts and environments -/

/-- The payload "Test". -/
def payloadTest : List Byte := [84, 101, 115, 116]

/-- The script `[(Text, "Test"), (Binary, [0x7B])]`, the first and third
packets of `main`. -/
def sampleOptions : TestOptions :=
  { URL := "ws://localhost:8090/",
    Packets := [⟨TextMessage, payloadTest⟩, ⟨BinaryMessage, [123]⟩] }

/-- A clock with strictly increasing readings. -/
def sampleClock : Clock :=
  { startTime := 0, connected := 10, firstMatch := 11, allReceived := 100, closed := 101 }

/-- A server that echoes the whole script and acknowledges the close
message. -/
def envEcho : Env :=
  { clock := sampleClock, dialErr := none, writeErr := fun _ => none,
    early := [], wait1 := sampleOptions.Packets.map echo,
    wait2 := [.failure (.closeError 1000 "")], pickDone := false }

/-- A server that echoes the first packet and then closes the connection with
code 1000. -/
def envEarlyClose : Env :=
  { clock := sampleClock, dialErr := none, writeErr := fun _ => none,
    early := [], wait1 := [echo ⟨TextMessage, payloadTest⟩, .failure (.closeError 1000 "")],
    wait2 := [], pickDone := false }

/-- A server that echoes the first packet and then sends the payload of the
second packet as a text message instead of a binary one. -/
def envTypeFlip : Env :=
  { clock := sampleClock, dialErr := none, writeErr := fun _ => none,
    early := [echo ⟨TextMessage, payloadTest⟩], wait1 := [.message TextMessage [123]],
    wait2 := [], pickDone := false }

/-- A server that echoes the first packet and then sends the payload of the
second packet as a text message; the receiver handles both while the caller is
in the send loop, where the write of the second packet fails. -/
def envTypeFlipWriteFails : Env :=
  { clock := sampleClock, dialErr := none,
    writeErr := fun j => if j = 1 then some (.errorString "write: broken pipe") else none,
    early := [echo ⟨TextMessage, payloadTest⟩, .message TextMessage [123]],
    wait1 := [], wait2 := [], pickDone := false }

/-- A server that echoes the whole script and then sends one more message. -/
def envExtra : Env :=
  { clock := sampleClock, dialErr := none, writeErr := fun _ => none,
    early := [], wait1 := sampleOptions.Packets.map echo,
    wait2 := [.message TextMessage payloadTest], pickDone := false }

/-! ## Predicates and closed forms used in the proofs -/

/-- What holds of the receiver in every state it can reach. -/
structure Receiver.Sound (opt : TestOptions) (clock : Clock) (cl : Int) (st : Receiver) :
    Prop where
  noFault : st.fault = none
  indexLe : st.index ≤ opt.Packets.length
  accessedEq : st.accessed = List.range st.index
  closedIff : st.doneClosed = !st.running
  doneNone : st.running = true → st.done = none
  receivedAll : st.received = true → st.index = opt.Packets.length ∧ 1 ≤ st.index
  firstSet : (st.running = true ∨ st.received = true) → 1 ≤ st.index →
    st.FirstRoundtripLatency = clock.firstMatch - clock.startTime - cl
  closesEq : st.closes = if st.received = true then 1 else 0

/-- The receiver after `k` packets of the script have been echoed correctly
(a closed form, proved below to be what `receiverRun` yields). -/
def echoed (opt : TestOptions) (clock : Clock) (cl : Int) (k : Nat) : Receiver :=
  { index := k, running := true, done := none, doneClosed := false,
    received := decide (k = opt.Packets.length ∧ 0 < k),
    FirstRoundtripLatency := if k = 0 then 0 else clock.firstMatch - clock.startTime - cl,
    fault := none, accessed := List.range k,
    closes := if k = opt.Packets.length ∧ 0 < k then 1 else 0 }

/-- The clock readings are non-decreasing in program order. -/
def Clock.monotone (c : Clock) : Prop :=
  c.startTime ≤ c.connected ∧ c.connected ≤ c.firstMatch ∧
    c.firstMatch ≤ c.allReceived ∧ c.allReceived ≤ c.closed

instance (c : Clock) : Decidable c.monotone := by
  unfold Clock.monotone
  infer_instance

/-! ## Facts about the receiver -/

theorem bytesCompare_eq_zero (a b : List Byte) : bytesCompare a b = 0 ↔ a = b := by
  induction a generalizing b with
  | nil => cases b <;> simp [bytesCompare]
  | cons x xs ih =>
    cases b with
    | nil => simp [bytesCompare]
    | cons y ys =>
      simp only [bytesCompare, List.cons.injEq]
      by_cases h1 : x < y
      · simp [h1, ne_of_lt h1]
      · by_cases h2 : y < x
        · simp [h1, h2, ne_of_gt h2]
        · have hxy : x = y := le_antisymm (not_lt.mp h2) (not_lt.mp h1)
          simp [h1, h2, hxy, ih]

theorem receiverRun_nil (opt : TestOptions) (clock : Clock) (cl : Int) (st : Receiver) :
    receiverRun opt clock cl st [] = st := rfl

theorem receiverRun_cons (opt : TestOptions) (clock : Clock) (cl : Int) (st : Receiver)
    (r : ReadResult) (rs : List ReadResult) :
    receiverRun opt clock cl st (r :: rs)
      = receiverRun opt clock cl (receiverNext opt clock cl st r) rs := rfl

theorem receiverRun_append (opt : TestOptions) (clock : Clock) (cl : Int) (st : Receiver)
    (xs ys : List ReadResult) :
    receiverRun opt clock cl st (xs ++ ys)
      = receiverRun opt clock cl (receiverRun opt clock cl st xs) ys := by
  simp [receiverRun, List.foldl_append]

theorem receiverRun_snoc (opt : TestOptions) (clock : Clock) (cl : Int) (st : Receiver)
    (xs : List ReadResult) (r : ReadResult) :
    receiverRun opt clock cl st (xs ++ [r])
      = receiverNext opt clock cl (receiverRun opt clock cl st xs) r := by
  simp [receiverRun, List.foldl_append]

theorem Receiver.sound_start (opt : TestOptions) (clock : Clock) (cl : Int) :
    Receiver.Sound opt clock cl Receiver.start := by
  constructor <;> simp [Receiver.start]

/-- The step on a message, once the count check has passed: the access
`opt.Packets[index]` is in range. -/
theorem receiverStep_message_lt (opt : TestOptions) (clock : Clock) (cl : Int) (st : Receiver)
    (mType : Int) (message : List Byte) (h : st.index < opt.Packets.length) :
    receiverStep opt clock cl st (.message mType message) =
      (let st1 : Receiver :=
          { st with accessed := st.accessed ++ [st.index], index := st.index + 1 }
       if opt.Packets[st.index].Type_ ≠ mType then st1.fail errPacketType
       else if opt.Packets[st.index].Payload ≠ message then st1.fail errPacketPayload
       else
         let st2 : Receiver :=
           if st1.index = 1 then
             { st1 with FirstRoundtripLatency := clock.firstMatch - clock.startTime - cl }
           else st1
         if st2.index = opt.Packets.length then
           let st3 : Receiver := { st2 with closes := st2.closes + 1 }
           if st3.received then st3.panic .closeOfClosedChannel
           else { st3 with received := true }
         else st2) := by
  have hget : opt.Packets[st.index]? = some opt.Packets[st.index] :=
    List.getElem?_eq_getElem h
  simp only [receiverStep, ge_iff_le, not_le.mpr h, if_false, hget, ne_eq,
    bytesCompare_eq_zero]

/-- The step on a message that matches the expected packet. -/
theorem receiverStep_match (opt : TestOptions) (clock : Clock) (cl : Int) (st : Receiver)
    (mType : Int) (message : List Byte) (h : st.index < opt.Packets.length)
    (hrec : st.received = false)
    (ht : opt.Packets[st.index].Type_ = mType)
    (hp : opt.Packets[st.index].Payload = message) :
    receiverStep opt clock cl st (.message mType message) =
      { st with
        index := st.index + 1
        accessed := st.accessed ++ [st.index]
        FirstRoundtripLatency :=
          if st.index = 0 then clock.firstMatch - clock.startTime - cl
          else st.FirstRoundtripLatency
        received := decide (st.index + 1 = opt.Packets.length)
        closes := if st.index + 1 = opt.Packets.length then st.closes + 1 else st.closes } := by
  rw [receiverStep_message_lt opt clock cl st mType message h]
  simp only [ne_eq, ht, hp, not_true_eq_false, if_false]
  obtain ⟨index, running, done, doneClosed, received, first, fault, accessed, closes⟩ := st
  simp only [] at h hrec ht hp ⊢
  subst hrec
  by_cases hl : opt.Packets.length = index + 1
  · by_cases h0 : index = 0 <;> simp [hl, h0]
  · have hl2 : ¬ index + 1 = opt.Packets.length := fun e => hl e.symm
    by_cases h0 : index = 0
    · subst h0
      have hl3 : ¬ 1 = opt.Packets.length := by omega
      simp [hl3]
    · simp [hl2, h0]

/-- The step on a message that does not match the expected packet. -/
theorem receiverStep_mismatch (opt : TestOptions) (clock : Clock) (cl : Int) (st : Receiver)
    (mType : Int) (message : List Byte) (h : st.index < opt.Packets.length)
    (hne : opt.Packets[st.index] ≠ ⟨mType, message⟩) :
    receiverStep opt clock cl st (.message mType message) =
      Receiver.fail { st with index := st.index + 1, accessed := st.accessed ++ [st.index] }
        (if opt.Packets[st.index].Type_ ≠ mType then errPacketType else errPacketPayload) := by
  rw [receiverStep_message_lt opt clock cl st mType message h]
  by_cases ht : opt.Packets[st.index].Type_ = mType
  · have hp : opt.Packets[st.index].Payload ≠ message := by
      intro hp
      apply hne
      cases hq : opt.Packets[st.index] with
      | mk t q => rw [hq] at ht hp; simp at ht hp; rw [ht, hp]
    simp [ht, hp]
  · simp [ht]

/-- The step on a message that arrives when the whole script has been
matched. -/
theorem receiverStep_extra (opt : TestOptions) (clock : Clock) (cl : Int) (st : Receiver)
    (mType : Int) (message : List Byte) (h : opt.Packets.length ≤ st.index) :
    receiverStep opt clock cl st (.message mType message) = st.fail errMorePackets := by
  simp [receiverStep, h]

theorem Receiver.sound_step (opt : TestOptions) (clock : Clock) (cl : Int) (st : Receiver)
    (r : ReadResult) (hs : Receiver.Sound opt clock cl st) (hr : st.running = true) :
    Receiver.Sound opt clock cl (receiverStep opt clock cl st r) := by
  obtain ⟨h1, h2, h3, h4, h5, h6, h7, h8⟩ := hs
  have hnr : st.received = true → st.index = opt.Packets.length := fun h => (h6 h).1
  cases r with
  | failure err =>
    simp only [receiverStep]
    split
    · exact ⟨h1, h2, h3, rfl, fun h => absurd h (by simp [Receiver.stop]), h6,
        fun h => h7 (Or.inr (h.resolve_left (by simp [Receiver.stop]))), h8⟩
    · exact ⟨h1, h2, h3, rfl, fun h => absurd h (by simp [Receiver.fail]), h6,
        fun h => h7 (Or.inr (h.resolve_left (by simp [Receiver.fail]))), h8⟩
  | message mType message =>
    by_cases hlt : st.index < opt.Packets.length
    · have hrec : st.received = false := by
        cases hrc : st.received with
        | false => rfl
        | true => have := hnr hrc; omega
      by_cases hm : opt.Packets[st.index] = ⟨mType, message⟩
      · have ht : opt.Packets[st.index].Type_ = mType := by rw [hm]
        have hp : opt.Packets[st.index].Payload = message := by rw [hm]
        rw [receiverStep_match opt clock cl st mType message hlt hrec ht hp]
        refine ⟨h1, hlt, ?_, h4, h5, ?_, ?_, ?_⟩
        · simp only [List.range_succ, h3]
        · intro h
          simp only [decide_eq_true_eq] at h
          exact ⟨h, Nat.le_add_left 1 _⟩
        · intro _ _
          by_cases h0 : st.index = 0
          · simp only [h0, if_true]
          · simp only [h0, if_false]
            exact h7 (Or.inl hr) (Nat.one_le_iff_ne_zero.mpr h0)
        · have h80 : st.closes = 0 := by simpa [hrec] using h8
          by_cases hl : st.index + 1 = opt.Packets.length <;> simp [hl, h80]
      · rw [receiverStep_mismatch opt clock cl st mType message hlt hm]
        refine ⟨h1, hlt, ?_, rfl, fun h => absurd h (by simp [Receiver.fail]), ?_, ?_, h8⟩
        · simp only [Receiver.fail, List.range_succ, h3]
        · intro h
          simp only [Receiver.fail, hrec] at h
          exact absurd h (by simp)
        · intro h
          simp only [Receiver.fail, hrec] at h
          exact absurd h (by simp)
    · rw [receiverStep_extra opt clock cl st mType message (not_lt.mp hlt)]
      exact ⟨h1, h2, h3, rfl, fun h => absurd h (by simp [Receiver.fail]), h6,
        fun h => h7 (Or.inr (h.resolve_left (by simp [Receiver.fail]))), h8⟩

theorem Receiver.sound_next (opt : TestOptions) (clock : Clock) (cl : Int) (st : Receiver)
    (r : ReadResult) (hs : Receiver.Sound opt clock cl st) :
    Receiver.Sound opt clock cl (receiverNext opt clock cl st r) := by
  unfold receiverNext
  split
  · exact Receiver.sound_step opt clock cl st r hs (by assumption)
  · exact hs

theorem Receiver.sound_run (opt : TestOptions) (clock : Clock) (cl : Int)
    (reads : List ReadResult) (st : Receiver) (hs : Receiver.Sound opt clock cl st) :
    Receiver.Sound opt clock cl (receiverRun opt clock cl st reads) := by
  induction reads generalizing st with
  | nil => exact hs
  | cons r rs ih =>
    rw [receiverRun_cons]
    exact ih _ (Receiver.sound_next opt clock cl st r hs)

theorem receiverNext_echoed (opt : TestOptions) (clock : Clock) (cl : Int) (k : Nat)
    (h : k < opt.Packets.length) :
    receiverNext opt clock cl (echoed opt clock cl k) (echo opt.Packets[k])
      = echoed opt clock cl (k + 1) := by
  have hrun : (echoed opt clock cl k).running = true := rfl
  have hidx : (echoed opt clock cl k).index < opt.Packets.length := h
  have hrec : (echoed opt clock cl k).received = false := by
    simp only [echoed, decide_eq_false_iff_not]
    omega
  have hstep := receiverStep_match opt clock cl (echoed opt clock cl k)
    opt.Packets[k].Type_ opt.Packets[k].Payload hidx hrec rfl rfl
  have hne : ¬ (k = opt.Packets.length ∧ 0 < k) := by omega
  rw [receiverNext, if_pos hrun, echo, hstep]
  by_cases h0 : k = 0
  · subst h0
    simp [echoed]
    rfl
  · simp [echoed, h0, List.range_succ, hne]

theorem receiverRun_echo (opt : TestOptions) (clock : Clock) (cl : Int) (k : Nat)
    (h : k ≤ opt.Packets.length) :
    receiverRun opt clock cl Receiver.start ((opt.Packets.take k).map echo)
      = echoed opt clock cl k := by
  induction k with
  | zero => simp [receiverRun, echoed, Receiver.start]
  | succ k ih =>
    have hk : k < opt.Packets.length := h
    rw [List.take_succ, List.getElem?_eq_getElem hk]
    simp only [Option.toList, List.map_append, List.map_cons, List.map_nil]
    rw [receiverRun_snoc, ih (Nat.le_of_lt hk), receiverNext_echoed opt clock cl k hk]

theorem doneReady_echoed (opt : TestOptions) (clock : Clock) (cl : Int) (k : Nat) :
    doneReady (echoed opt clock cl k) = false := rfl

/-- Once the goroutine has returned, further read results change nothing. -/
theorem receiverRun_stopped (opt : TestOptions) (clock : Clock) (cl : Int) (st : Receiver)
    (reads : List ReadResult) (h : st.running = false) :
    receiverRun opt clock cl st reads = st := by
  induction reads with
  | nil => rfl
  | cons r rs ih =>
    rw [receiverRun_cons]
    have : receiverNext opt clock cl st r = st := by simp [receiverNext, h]
    rw [this, ih]

/-! ## Facts about the two waits -/

theorem firstSelect_spec (step : Receiver → ReadResult → Receiver) (pickDone : Bool)
    (reads : List ReadResult) (st : Receiver) :
    ∃ n, n ≤ reads.length ∧
      (firstSelect step pickDone st reads).2.1 = (reads.take n).foldl step st ∧
      (firstSelect step pickDone st reads).2.2 = reads.drop n ∧
      ((firstSelect step pickDone st reads).1 = .done →
        doneReady (firstSelect step pickDone st reads).2.1 = true) ∧
      ((firstSelect step pickDone st reads).1 = .received →
        (firstSelect step pickDone st reads).2.1.received = true) ∧
      ((firstSelect step pickDone st reads).1 = .timeout →
        n = reads.length ∧ doneReady (firstSelect step pickDone st reads).2.1 = false ∧
          (firstSelect step pickDone st reads).2.1.received = false) := by
  induction reads generalizing st with
  | nil =>
    refine ⟨0, le_refl _, ?_⟩
    unfold firstSelect
    cases hd : doneReady st <;> cases hr : st.received <;> cases pickDone <;> simp [hd, hr]
  | cons r rs ih =>
    by_cases hready : doneReady st = true ∨ st.received = true
    · refine ⟨0, Nat.zero_le _, ?_⟩
      unfold firstSelect
      cases hd : doneReady st <;> cases hr : st.received <;> cases pickDone <;>
        simp [hd, hr] at hready ⊢
    · have hd : doneReady st = false := by
        cases h : doneReady st with
        | false => rfl
        | true => exact absurd (Or.inl h) hready
      have hr : st.received = false := by
        cases h : st.received with
        | false => rfl
        | true => exact absurd (Or.inr h) hready
      have hunf : firstSelect step pickDone st (r :: rs)
          = firstSelect step pickDone (step st r) rs := by
        rw [firstSelect]
        simp [hd, hr]
      obtain ⟨n, hn, h1, h2, h3, h4, h5⟩ := ih (step st r)
      refine ⟨n + 1, Nat.succ_le_succ hn, ?_⟩
      rw [hunf]
      refine ⟨by simpa using h1, by simpa using h2, h3, h4, ?_⟩
      intro h
      obtain ⟨a, b, c⟩ := h5 h
      exact ⟨by simp [a], b, c⟩

theorem secondSelect_some (step : Receiver → ReadResult → Receiver)
    (reads : List ReadResult) (st st2 : Receiver)
    (h : secondSelect step st reads = some st2) :
    ∃ n, n ≤ reads.length ∧ st2 = (reads.take n).foldl step st ∧ doneReady st2 = true := by
  induction reads generalizing st with
  | nil =>
    unfold secondSelect at h
    by_cases hd : doneReady st = true
    · simp only [hd, if_true, Option.some.injEq] at h
      exact ⟨0, le_refl _, by simp [h], h ▸ hd⟩
    · simp [hd] at h
  | cons r rs ih =>
    unfold secondSelect at h
    by_cases hd : doneReady st = true
    · simp only [hd, if_true, Option.some.injEq] at h
      exact ⟨0, Nat.zero_le _, by simp [h], h ▸ hd⟩
    · simp only [hd, if_false] at h
      obtain ⟨n, hn, h1, h2⟩ := ih (step st r) h
      exact ⟨n + 1, Nat.succ_le_succ hn, by simpa using h1, h2⟩

theorem leave_sound (opt : TestOptions) (clock : Clock) (cl : Int) (st : Receiver)
    (hs : Receiver.Sound opt clock cl st) (res : TestResult) (err : Option GoError)
    (exit : Exit) :
    leave st res err exit =
      { res := { res with FirstRoundtripLatency := st.FirstRoundtripLatency },
        err := err, exit := exit } := by
  simp [leave, hs.noFault]

/-- The step on a message once the count check has passed, in flat form. -/
theorem receiverStep_message_flat (opt : TestOptions) (clock : Clock) (cl : Int)
    (st : Receiver) (mType : Int) (message : List Byte) (h : st.index < opt.Packets.length) :
    receiverStep opt clock cl st (.message mType message) =
      if opt.Packets[st.index].Type_ ≠ mType then
        Receiver.fail { st with index := st.index + 1, accessed := st.accessed ++ [st.index] }
          errPacketType
      else if opt.Packets[st.index].Payload ≠ message then
        Receiver.fail { st with index := st.index + 1, accessed := st.accessed ++ [st.index] }
          errPacketPayload
      else if st.index + 1 = opt.Packets.length ∧ st.received = true then
        Receiver.panic
          { st with
            index := st.index + 1
            accessed := st.accessed ++ [st.index]
            FirstRoundtripLatency :=
              if st.index = 0 then clock.firstMatch - clock.startTime - cl
              else st.FirstRoundtripLatency
            closes := st.closes + 1 }
          Fault.closeOfClosedChannel
      else
        { st with
          index := st.index + 1
          accessed := st.accessed ++ [st.index]
          FirstRoundtripLatency :=
            if st.index = 0 then clock.firstMatch - clock.startTime - cl
            else st.FirstRoundtripLatency
          received := st.received || decide (st.index + 1 = opt.Packets.length)
          closes :=
            if st.index + 1 = opt.Packets.length then st.closes + 1 else st.closes } := by
  rw [receiverStep_message_lt opt clock cl st mType message h]
  obtain ⟨index, running, done, doneClosed, received, first, fault, accessed, closes⟩ := st
  simp only [] at h ⊢
  by_cases ht : opt.Packets[index].Type_ = mType
  · by_cases hp : opt.Packets[index].Payload = message
    · by_cases h0 : index = 0
      · by_cases hl : opt.Packets.length = index + 1
        · cases received <;> simp [ht, hp, h0, hl]
        · have hl2 : ¬ index + 1 = opt.Packets.length := fun e => hl e.symm
          subst h0
          have hl3 : ¬ 1 = opt.Packets.length := by omega
          cases received <;> simp [ht, hp, hl3]
      · by_cases hl : opt.Packets.length = index + 1
        · cases received <;> simp [ht, hp, h0, hl]
        · have hl2 : ¬ index + 1 = opt.Packets.length := fun e => hl e.symm
          cases received <;> simp [ht, hp, h0, hl2]
    · simp [ht, hp]
  · simp [ht]

/-- A closed `received` channel stays closed. -/
theorem receiverNext_received (opt : TestOptions) (clock : Clock) (cl : Int) (st : Receiver)
    (r : ReadResult) (h : st.received = true) :
    (receiverNext opt clock cl st r).received = true := by
  unfold receiverNext
  split
  · cases r with
    | failure err =>
      simp only [receiverStep]
      split <;> simpa [Receiver.stop, Receiver.fail] using h
    | message mType message =>
      by_cases hlt : st.index < opt.Packets.length
      · rw [receiverStep_message_flat opt clock cl st mType message hlt]
        split_ifs <;> simp [Receiver.fail, Receiver.panic, h]
      · rw [receiverStep_extra opt clock cl st mType message (not_lt.mp hlt)]
        simpa [Receiver.fail] using h
  · exact h

theorem foldl_received (opt : TestOptions) (clock : Clock) (cl : Int)
    (reads : List ReadResult) (st : Receiver) (h : st.received = true) :
    (reads.foldl (receiverNext opt clock cl) st).received = true := by
  induction reads generalizing st with
  | nil => exact h
  | cons r rs ih => exact ih _ (receiverNext_received opt clock cl st r h)

/-- The index moves by at most one per read result, and never backwards. -/
theorem receiverNext_index (opt : TestOptions) (clock : Clock) (cl : Int) (st : Receiver)
    (r : ReadResult) :
    st.index ≤ (receiverNext opt clock cl st r).index ∧
      (receiverNext opt clock cl st r).index ≤ st.index + 1 := by
  unfold receiverNext
  split
  · cases r with
    | failure err =>
      simp only [receiverStep]
      split <;> simp [Receiver.stop, Receiver.fail]
    | message mType message =>
      by_cases hlt : st.index < opt.Packets.length
      · rw [receiverStep_message_flat opt clock cl st mType message hlt]
        split_ifs <;> simp [Receiver.fail, Receiver.panic]
      · rw [receiverStep_extra opt clock cl st mType message (not_lt.mp hlt)]
        simp [Receiver.fail]
  · simp

/-- Inversion of a run that ends in the closure-observed branch. -/
theorem closureObserved_inv (opt : TestOptions) (env : Env)
    (h : (DoConnectionTest opt env).exit = Exit.closureObserved) :
    ∃ st1 rest st2,
      env.dialErr = none ∧
      sendPackets env.writeErr 0 opt.Packets = none ∧
      firstSelect (receiverNext opt env.clock (env.clock.connected - env.clock.startTime))
        env.pickDone
        (receiverRun opt env.clock (env.clock.connected - env.clock.startTime)
          Receiver.start env.early) env.wait1 = (Ready.received, st1, rest) ∧
      env.writeErr opt.Packets.length = none ∧
      secondSelect (receiverNext opt env.clock (env.clock.connected - env.clock.startTime))
        st1 (rest ++ env.wait2) = some st2 ∧
      st2.fault = none ∧
      DoConnectionTest opt env =
        { res :=
            { TotalDuration :=
                (env.clock.connected - env.clock.startTime)
                  + (env.clock.allReceived - env.clock.startTime
                      - (env.clock.connected - env.clock.startTime))
                  + (env.clock.closed - env.clock.startTime
                      - (env.clock.allReceived - env.clock.startTime
                          - (env.clock.connected - env.clock.startTime)))
              ConnectLatency := env.clock.connected - env.clock.startTime
              FirstRoundtripLatency := st2.FirstRoundtripLatency
              FullRoundtripLatency :=
                env.clock.allReceived - env.clock.startTime
                  - (env.clock.connected - env.clock.startTime)
              DisconnectLatency :=
                env.clock.closed - env.clock.startTime
                  - (env.clock.allReceived - env.clock.startTime
                      - (env.clock.connected - env.clock.startTime)) }
          err := st2.done
          exit := Exit.closureObserved } := by
  unfold DoConnectionTest at h ⊢
  simp only [] at h ⊢
  split at h
  · simp at h
  · rename_i hdial
    split at h
    · simp only [leave] at h
      split at h <;> simp at h
    · rename_i hsend
      split at h
      · simp only [leave] at h
        split at h <;> simp at h
      · simp only [leave] at h
        split at h <;> simp at h
      · rename_i st1 rest hsel
        split at h
        · simp only [leave] at h
          split at h <;> simp at h
        · rename_i hclose
          split at h
          · rename_i st2 hsel2
            have hf : st2.fault = none := by
              cases hfa : st2.fault with
              | none => rfl
              | some f => simp [leave, hfa] at h
            refine ⟨st1, rest, st2, hdial, hsend, hsel, hclose, hsel2, hf, ?_⟩
            simp [hdial, hsend, hsel, hclose, hsel2, leave, hf]
          · simp only [leave] at h
            split at h <;> simp at h

/-- In a run that ends in the closure-observed branch the script is not empty
and the first round trip was measured at the first match. -/
theorem closureObserved_first (opt : TestOptions) (env : Env)
    (h : (DoConnectionTest opt env).exit = Exit.closureObserved) :
    1 ≤ opt.Packets.length ∧
      (DoConnectionTest opt env).res.FirstRoundtripLatency =
        env.clock.firstMatch - env.clock.startTime
          - (env.clock.connected - env.clock.startTime) := by
  obtain ⟨st1, rest, st2, _, _, hsel, _, hsel2, _, hout⟩ := closureObserved_inv opt env h
  obtain ⟨n, _, h1, _, _, h4, _⟩ :=
    firstSelect_spec (receiverNext opt env.clock (env.clock.connected - env.clock.startTime))
      env.pickDone env.wait1
      (receiverRun opt env.clock (env.clock.connected - env.clock.startTime)
        Receiver.start env.early)
  rw [hsel] at h1 h4
  simp only [] at h1 h4
  have hrec1 : st1.received = true := h4 trivial
  have hs0 := Receiver.sound_run opt env.clock (env.clock.connected - env.clock.startTime)
    env.early Receiver.start (Receiver.sound_start _ _ _)
  have hs1 : Receiver.Sound opt env.clock (env.clock.connected - env.clock.startTime) st1 := by
    rw [h1]
    exact Receiver.sound_run opt env.clock _ (env.wait1.take n) _ hs0
  obtain ⟨n2, _, h21, _⟩ := secondSelect_some _ _ _ _ hsel2
  have hs2 : Receiver.Sound opt env.clock (env.clock.connected - env.clock.startTime) st2 := by
    rw [h21]
    exact Receiver.sound_run opt env.clock _ ((rest ++ env.wait2).take n2) _ hs1
  have hrec2 : st2.received = true := by
    rw [h21]
    exact foldl_received opt env.clock _ _ _ hrec1
  obtain ⟨hidx, hone⟩ := hs2.receivedAll hrec2
  refine ⟨by omega, ?_⟩
  rw [hout]
  exact hs2.firstSet (Or.inr hrec2) hone

theorem sendPackets_none (writeErr : Nat → Option GoError) (ps : List TestPacket) (k : Nat)
    (h : ∀ j, k ≤ j → j < k + ps.length → writeErr j = none) :
    sendPackets writeErr k ps = none := by
  induction ps generalizing k with
  | nil => rfl
  | cons p ps ih =>
    have hk : writeErr k = none := h k (le_refl _) (by simp)
    have hrest : sendPackets writeErr (k + 1) ps = none :=
      ih (k + 1) (fun j h1 h2 => h j (by omega) (by simp only [List.length_cons]; omega))
    simp [sendPackets, hk, hrest]

theorem sendPackets_ok (writeErr : Nat → Option GoError) (ps : List TestPacket)
    (h : ∀ j, j < ps.length → writeErr j = none) : sendPackets writeErr 0 ps = none :=
  sendPackets_none writeErr ps 0 (fun j _ h2 => h j (by omega))

/-- The receiver along an inbound stream that echoes the first `i` packets
correctly and then delivers a read result `r` at which the goroutine
returns. -/
theorem receiverRun_take_stream (opt : TestOptions) (clock : Clock) (cl : Int) (i : Nat)
    (hi : i ≤ opt.Packets.length) (r : ReadResult) (rest : List ReadResult)
    (hstop : (receiverNext opt clock cl (echoed opt clock cl i) r).running = false)
    (k : Nat) :
    receiverRun opt clock cl Receiver.start
        (((opt.Packets.take i).map echo ++ r :: rest).take k) =
      if k ≤ i then echoed opt clock cl k
      else receiverNext opt clock cl (echoed opt clock cl i) r := by
  have hlen : ((opt.Packets.take i).map echo).length = i := by
    simp [List.length_take, hi]
  by_cases hk : k ≤ i
  · rw [if_pos hk, List.take_append_of_le_length (by rw [hlen]; exact hk), ← List.map_take,
      List.take_take, min_eq_left hk]
    exact receiverRun_echo opt clock cl k (le_trans hk hi)
  · rw [if_neg hk]
    obtain ⟨j, rfl⟩ : ∃ j, k = i + (j + 1) := ⟨k - i - 1, by omega⟩
    have hsplit : ((opt.Packets.take i).map echo ++ r :: rest).take (i + (j + 1))
        = (opt.Packets.take i).map echo ++ r :: rest.take j := by
      have := @List.take_append _ ((opt.Packets.take i).map echo) (r :: rest) (j + 1)
      rw [hlen] at this
      rw [this]
      rfl
    rw [hsplit, receiverRun_append, receiverRun_echo opt clock cl i hi, receiverRun_cons,
      receiverRun_stopped opt clock cl _ _ hstop]

/-- What the caller sees at its first `select`: the receiver has handled a
leading part of `early ++ wait1`, all of it if the timer fires. -/
theorem firstSelect_observed (opt : TestOptions) (clock : Clock) (cl : Int)
    (pickDone : Bool) (early wait1 : List ReadResult) (c : Ready) (st1 : Receiver)
    (rest : List ReadResult)
    (h : firstSelect (receiverNext opt clock cl) pickDone
      (receiverRun opt clock cl Receiver.start early) wait1 = (c, st1, rest)) :
    ∃ n, n ≤ wait1.length ∧
      st1 = receiverRun opt clock cl Receiver.start ((early ++ wait1).take (early.length + n)) ∧
      rest = wait1.drop n ∧
      (c = Ready.done → doneReady st1 = true) ∧
      (c = Ready.received → st1.received = true) ∧
      (c = Ready.timeout → n = wait1.length ∧ doneReady st1 = false ∧ st1.received = false) := by
  obtain ⟨n, hn, h1, h2, h3, h4, h5⟩ := firstSelect_spec (receiverNext opt clock cl) pickDone
    wait1 (receiverRun opt clock cl Receiver.start early)
  rw [h] at h1 h2 h3 h4 h5
  simp only [] at h1 h2 h3 h4 h5
  refine ⟨n, hn, ?_, h2, h3, h4, h5⟩
  rw [List.take_append, receiverRun_append, h1]
  rfl

/-- What the caller sees at its second `select` when `done` becomes ready:
the receiver has handled a leading part of the whole inbound stream. -/
theorem secondSelect_observed (opt : TestOptions) (clock : Clock) (cl : Int)
    (early wait1 wait2 : List ReadResult) (n : Nat) (st2 : Receiver)
    (h : secondSelect (receiverNext opt clock cl)
      (receiverRun opt clock cl Receiver.start ((early ++ wait1).take (early.length + n)))
      (wait1.drop n ++ wait2) = some st2) :
    ∃ k, st2 = receiverRun opt clock cl Receiver.start ((early ++ wait1 ++ wait2).take k) ∧
      doneReady st2 = true := by
  obtain ⟨m, _, h1, h2⟩ := secondSelect_some _ _ _ _ h
  refine ⟨(early ++ wait1.take n).length + m, ?_, h2⟩
  have hall : early ++ wait1 ++ wait2 = (early ++ wait1.take n) ++ (wait1.drop n ++ wait2) := by
    simp [List.append_assoc]
    rw [← List.append_assoc, List.take_append_drop]
  rw [hall, List.take_append, receiverRun_append, h1, List.take_append]
  rfl

/-- A step that raises the all-received signal leaves the goroutine in its
loop. -/
theorem receiverNext_raise_running (opt : TestOptions) (clock : Clock) (cl : Int)
    (st : Receiver) (r : ReadResult) (h0 : st.received = false)
    (h1 : (receiverNext opt clock cl st r).received = true) :
    (receiverNext opt clock cl st r).running = true := by
  revert h1
  unfold receiverNext
  split
  · rename_i hrun
    cases r with
    | failure err =>
      simp only [receiverStep]
      split <;> simp [Receiver.stop, Receiver.fail, h0]
    | message mType message =>
      by_cases hlt : st.index < opt.Packets.length
      · rw [receiverStep_message_flat opt clock cl st mType message hlt]
        split_ifs <;> simp [Receiver.fail, Receiver.panic, h0, hrun]
      · rw [receiverStep_extra opt clock cl st mType message (not_lt.mp hlt)]
        simp [Receiver.fail, h0]
  · simp [h0]

theorem Receiver.sound_echoed (opt : TestOptions) (clock : Clock) (cl : Int) (i : Nat)
    (hi : i ≤ opt.Packets.length) : Receiver.Sound opt clock cl (echoed opt clock cl i) := by
  rw [← receiverRun_echo opt clock cl i hi]
  exact Receiver.sound_run opt clock cl _ _ (Receiver.sound_start _ _ _)

theorem received_echoed_lt (opt : TestOptions) (clock : Clock) (cl : Int) (i : Nat)
    (hi : i < opt.Packets.length) : (echoed opt clock cl i).received = false := by
  simp only [echoed, decide_eq_false_iff_not]
  omega

/-- A run in which, during the send loop and the first wait, the server
echoes the first `i` packets of a longer script and then the receiver returns
at the read result `r`: the first `select` takes the `done` case and the caller
returns what it receives from `done`. -/
theorem receiverReport_of_stream (opt : TestOptions) (env : Env) (i : Nat)
    (hi : i < opt.Packets.length) (r : ReadResult) (rest : List ReadResult)
    (hstop : (receiverNext opt env.clock (env.clock.connected - env.clock.startTime)
      (echoed opt env.clock (env.clock.connected - env.clock.startTime) i) r).running = false)
    (hdial : env.dialErr = none)
    (hsend : sendPackets env.writeErr 0 opt.Packets = none)
    (hin : env.early ++ env.wait1 = (opt.Packets.take i).map echo ++ r :: rest) :
    (DoConnectionTest opt env).err =
        (receiverNext opt env.clock (env.clock.connected - env.clock.startTime)
          (echoed opt env.clock (env.clock.connected - env.clock.startTime) i) r).done ∧
      (DoConnectionTest opt env).exit = Exit.receiverReport := by
  rcases hfs : firstSelect
    (receiverNext opt env.clock (env.clock.connected - env.clock.startTime)) env.pickDone
    (receiverRun opt env.clock (env.clock.connected - env.clock.startTime)
      Receiver.start env.early) env.wait1 with ⟨c, st1, rest1⟩
  obtain ⟨n, hn, h1, _, h3, h4, h5⟩ := firstSelect_observed opt env.clock _ _ _ _ _ _ _ hfs
  have hs1 : Receiver.Sound opt env.clock (env.clock.connected - env.clock.startTime) st1 := by
    rw [h1]
    exact Receiver.sound_run opt env.clock _ _ _ (Receiver.sound_start _ _ _)
  rw [hin, receiverRun_take_stream opt env.clock _ i (le_of_lt hi) r rest hstop] at h1
  have hlen : env.early.length + env.wait1.length = i + (rest.length + 1) := by
    have := congrArg List.length hin
    simpa [List.length_take, le_of_lt hi] using this
  have hsF := Receiver.sound_next opt env.clock (env.clock.connected - env.clock.startTime)
    _ r (Receiver.sound_echoed opt env.clock
      (env.clock.connected - env.clock.startTime) i (le_of_lt hi))
  have hFrec : (receiverNext opt env.clock (env.clock.connected - env.clock.startTime)
      (echoed opt env.clock (env.clock.connected - env.clock.startTime) i) r).received
        = false := by
    cases hrc : (receiverNext opt env.clock (env.clock.connected - env.clock.startTime)
      (echoed opt env.clock (env.clock.connected - env.clock.startTime) i) r).received with
    | false => rfl
    | true =>
      have := receiverNext_raise_running opt env.clock _ _ r
        (received_echoed_lt opt env.clock _ i hi) hrc
      rw [hstop] at this
      exact absurd this (by simp)
  have hFready : doneReady (receiverNext opt env.clock
      (env.clock.connected - env.clock.startTime)
      (echoed opt env.clock (env.clock.connected - env.clock.startTime) i) r) = true := by
    have := hsF.closedIff
    rw [hstop] at this
    simp [doneReady, this]
  have hnotrec : st1.received = false := by
    rw [h1]
    split
    · rename_i hk
      exact received_echoed_lt opt env.clock _ _ (lt_of_le_of_lt hk hi)
    · exact hFrec
  have hc : c = Ready.done := by
    cases c with
    | done => rfl
    | received => exact absurd (h4 rfl) (by simp [hnotrec])
    | timeout =>
      obtain ⟨hn2, hd, _⟩ := h5 rfl
      rw [h1, if_neg (by omega), hFready] at hd
      exact absurd hd (by simp)
  subst hc
  have hready := h3 rfl
  have hst1 : st1 = receiverNext opt env.clock (env.clock.connected - env.clock.startTime)
      (echoed opt env.clock (env.clock.connected - env.clock.startTime) i) r := by
    by_cases hk : env.early.length + n ≤ i
    · rw [h1, if_pos hk, doneReady_echoed] at hready
      exact absurd hready (by simp)
    · rw [h1, if_neg hk]
  have hout : DoConnectionTest opt env =
      leave st1
        { TotalDuration := 0, ConnectLatency := env.clock.connected - env.clock.startTime,
          FirstRoundtripLatency := 0, FullRoundtripLatency := 0, DisconnectLatency := 0 }
        st1.done Exit.receiverReport := by
    unfold DoConnectionTest
    simp [hdial, hsend, hfs]
  rw [hout, leave_sound opt env.clock _ st1 hs1, ← hst1]
  exact ⟨rfl, rfl⟩

/-- A step after which the goroutine is still in its loop handled the echo of
the expected packet. -/
theorem receiverStep_running_inv (opt : TestOptions) (clock : Clock) (cl : Int)
    (st : Receiver) (r : ReadResult)
    (h : (receiverStep opt clock cl st r).running = true) :
    ∃ hlt : st.index < opt.Packets.length,
      r = echo opt.Packets[st.index] ∧ (receiverStep opt clock cl st r).index = st.index + 1 := by
  cases r with
  | failure err =>
    simp only [receiverStep] at h
    split at h <;> simp [Receiver.stop, Receiver.fail] at h
  | message mType message =>
    by_cases hlt : st.index < opt.Packets.length
    · refine ⟨hlt, ?_⟩
      rw [receiverStep_message_flat opt clock cl st mType message hlt] at h ⊢
      by_cases h1 : opt.Packets[st.index].Type_ = mType
      · by_cases h2 : opt.Packets[st.index].Payload = message
        · by_cases h3 : st.index + 1 = opt.Packets.length ∧ st.received = true
          · simp [h1, h2, h3, Receiver.panic] at h
          · rw [if_neg (not_not.mpr h1), if_neg (not_not.mpr h2), if_neg h3]
            exact ⟨by simp only [echo, h1, h2], rfl⟩
        · simp [h1, h2, Receiver.fail] at h
      · simp [h1, Receiver.fail] at h
    · rw [receiverStep_extra opt clock cl st mType message (not_lt.mp hlt)] at h
      simp [Receiver.fail] at h

/-- While the goroutine is in its loop, the read results it has handled are
the echoes of the first `index` packets of the script. -/
theorem receiverRun_running_echo (opt : TestOptions) (clock : Clock) (cl : Int)
    (reads : List ReadResult)
    (h : (receiverRun opt clock cl Receiver.start reads).running = true) :
    reads = (opt.Packets.take (receiverRun opt clock cl Receiver.start reads).index).map echo := by
  induction reads using List.reverseRecOn with
  | nil => simp [receiverRun, Receiver.start]
  | append_singleton xs r ih =>
    rw [receiverRun_snoc] at h ⊢
    have hrun : (receiverRun opt clock cl Receiver.start xs).running = true := by
      cases hx : (receiverRun opt clock cl Receiver.start xs).running with
      | true => rfl
      | false =>
        rw [receiverNext, hx] at h
        simp at h
        exact absurd hx (by simp [h])
    have ihx := ih hrun
    rw [receiverNext, if_pos hrun] at h ⊢
    obtain ⟨hlt, hr, hidx⟩ := receiverStep_running_inv opt clock cl _ r h
    rw [hidx, List.take_succ, List.getElem?_eq_getElem hlt]
    simp only [Option.toList, List.map_append, List.map_cons, List.map_nil]
    rw [← ihx, ← hr]

/-- A run that gets as far as the Closing phase has a non-empty script. -/
theorem reachedClosing_pos (opt : TestOptions) (env : Env)
    (h : (DoConnectionTest opt env).exit.reachedClosing = true) :
    1 ≤ opt.Packets.length := by
  cases hdial : env.dialErr with
  | some err =>
    have : DoConnectionTest opt env =
        { res := ⟨0, 0, 0, 0, 0⟩, err := some err, exit := Exit.dialFailed } := by
      unfold DoConnectionTest
      simp [hdial]
    rw [this] at h
    simp [Exit.reachedClosing] at h
  | none =>
    cases hsend : sendPackets env.writeErr 0 opt.Packets with
    | some err =>
      have : DoConnectionTest opt env =
          leave (receiverRun opt env.clock (env.clock.connected - env.clock.startTime)
            Receiver.start env.early)
            ⟨0, env.clock.connected - env.clock.startTime, 0, 0, 0⟩ (some err)
            Exit.sendFailed := by
        unfold DoConnectionTest
        simp [hdial, hsend]
      rw [this] at h
      simp only [leave] at h
      split at h <;> simp [Exit.reachedClosing] at h
    | none =>
      rcases hfs : firstSelect
        (receiverNext opt env.clock (env.clock.connected - env.clock.startTime)) env.pickDone
        (receiverRun opt env.clock (env.clock.connected - env.clock.startTime)
          Receiver.start env.early) env.wait1 with ⟨c, st1, rest1⟩
      obtain ⟨n, _, h1, _, _, h4, _⟩ := firstSelect_observed opt env.clock _ _ _ _ _ _ _ hfs
      have hs1 : Receiver.Sound opt env.clock
          (env.clock.connected - env.clock.startTime) st1 := by
        rw [h1]
        exact Receiver.sound_run opt env.clock _ _ _ (Receiver.sound_start _ _ _)
      cases c with
      | done =>
        have : DoConnectionTest opt env =
            leave st1 ⟨0, env.clock.connected - env.clock.startTime, 0, 0, 0⟩ st1.done
              Exit.receiverReport := by
          unfold DoConnectionTest
          simp [hdial, hsend, hfs]
        rw [this] at h
        simp only [leave] at h
        split at h <;> simp [Exit.reachedClosing] at h
      | timeout =>
        have : DoConnectionTest opt env =
            leave st1 ⟨0, env.clock.connected - env.clock.startTime, 0, 0, 0⟩
              (some errReceiveTimeout) Exit.receiveTimeout := by
          unfold DoConnectionTest
          simp [hdial, hsend, hfs]
        rw [this] at h
        simp only [leave] at h
        split at h <;> simp [Exit.reachedClosing] at h
      | received =>
        obtain ⟨ha, hb⟩ := hs1.receivedAll (h4 rfl)
        omega

/-- A normal closure that arrives, during the send loop or the first wait,
after only `k < len(S)` packets have been echoed makes the run return a nil
error from the first `select`, whatever the script. -/
theorem early_closure_nil (opt : TestOptions) (env : Env) (k : Nat) (text : String)
    (rest : List ReadResult) (hk : k < opt.Packets.length)
    (hdial : env.dialErr = none)
    (hwrite : ∀ j, j < opt.Packets.length → env.writeErr j = none)
    (hin : env.early ++ env.wait1 = (opt.Packets.take k).map echo
      ++ ReadResult.failure (GoError.closeError CloseNormalClosure text) :: rest) :
    (DoConnectionTest opt env).err = none ∧
      (DoConnectionTest opt env).exit = Exit.receiverReport := by
  have hnext : receiverNext opt env.clock (env.clock.connected - env.clock.startTime)
      (echoed opt env.clock (env.clock.connected - env.clock.startTime) k)
      (ReadResult.failure (GoError.closeError CloseNormalClosure text))
      = (echoed opt env.clock (env.clock.connected - env.clock.startTime) k).stop := by
    simp [receiverNext, receiverStep, isNormalClosure, echoed]
  have h := receiverReport_of_stream opt env k hk _ rest (by rw [hnext]; rfl) hdial
    (sendPackets_ok env.writeErr _ hwrite) hin
  rw [hnext] at h
  exact h

/-- In every run that ends in the closure-observed branch, `TotalDuration` is
the time elapsed from the start to the observed closure plus
`ConnectLatency`, and `DisconnectLatency` is the time elapsed from the
all-received instant to the observed closure plus `ConnectLatency`. -/
theorem closureObserved_durations (opt : TestOptions) (env : Env)
    (h : (DoConnectionTest opt env).exit = Exit.closureObserved) :
    (DoConnectionTest opt env).res.TotalDuration =
        (env.clock.closed - env.clock.startTime)
          + (DoConnectionTest opt env).res.ConnectLatency ∧
      (DoConnectionTest opt env).res.DisconnectLatency =
        (env.clock.closed - env.clock.allReceived)
          + (DoConnectionTest opt env).res.ConnectLatency := by
  obtain ⟨st1, rest, st2, _, _, _, _, _, _, hout⟩ := closureObserved_inv opt env h
  rw [hout]
  simp only []
  constructor <;> omega

/-! ## The claims -/

/-- C1 (the code departs from the claim).  The script is
`[(Text, "Test"), (Binary, [0x7B])]`; the server echoes the first packet and
then closes the connection with code 1000, before the second packet has been
echoed.  The receiver returns without sending on `done`, the deferred
`close(done)` makes the first `select` receive a nil error, and
`DoConnectionTest` returns it: a nil error, with `FullRoundtripLatency` left at
zero, although only one of the two packets was received. -/
theorem early_closure_returns_nil :
    1 < sampleOptions.Packets.length ∧
      envEarlyClose.early ++ envEarlyClose.wait1 =
        (sampleOptions.Packets.take 1).map echo
          ++ [ReadResult.failure (GoError.closeError CloseNormalClosure "")] ∧
      (receiverRun sampleOptions envEarlyClose.clock 10 Receiver.start
        (envEarlyClose.early ++ envEarlyClose.wait1)).index = 1 ∧
      (DoConnectionTest sampleOptions envEarlyClose).err = none ∧
      (DoConnectionTest sampleOptions envEarlyClose).exit = Exit.receiverReport ∧
      (DoConnectionTest sampleOptions envEarlyClose).res.FullRoundtripLatency = 0 :=
  ⟨by decide, rfl, by decide, by decide, by decide, by decide⟩

/-- C5, as stated, fails: in the run of `envEcho` (a correct echo of the
two-packet script, nil error after the closure wait) `TotalDuration` is 111
while the four phase latencies 10, 1, 90 and 11 add up to 112. -/
theorem total_is_not_sum_of_four :
    (DoConnectionTest sampleOptions envEcho).err = none ∧
      (DoConnectionTest sampleOptions envEcho).exit = Exit.closureObserved ∧
      (DoConnectionTest sampleOptions envEcho).res.TotalDuration ≠
        (DoConnectionTest sampleOptions envEcho).res.ConnectLatency
          + (DoConnectionTest sampleOptions envEcho).res.FirstRoundtripLatency
          + (DoConnectionTest sampleOptions envEcho).res.FullRoundtripLatency
          + (DoConnectionTest sampleOptions envEcho).res.DisconnectLatency := by
  decide

/-- C5, amended.  In every run that ends in the closure-observed branch,
`TotalDuration` is the sum of three of the phase latencies, `ConnectLatency +
FullRoundtripLatency + DisconnectLatency`; `FirstRoundtripLatency` is not a
summand. -/
theorem total_is_sum_of_three (opt : TestOptions) (env : Env)
    (h : (DoConnectionTest opt env).exit = Exit.closureObserved) :
    (DoConnectionTest opt env).res.TotalDuration =
      (DoConnectionTest opt env).res.ConnectLatency
        + (DoConnectionTest opt env).res.FullRoundtripLatency
        + (DoConnectionTest opt env).res.DisconnectLatency := by
  obtain ⟨st1, rest, st2, _, _, _, _, _, _, hout⟩ := closureObserved_inv opt env h
  rw [hout]

/-- The amended C5 at the run of `envEcho`. -/
theorem total_is_sum_of_three_witness :
    (DoConnectionTest sampleOptions envEcho).exit = Exit.closureObserved ∧
      (DoConnectionTest sampleOptions envEcho).res.TotalDuration =
        (DoConnectionTest sampleOptions envEcho).res.ConnectLatency
          + (DoConnectionTest sampleOptions envEcho).res.FullRoundtripLatency
          + (DoConnectionTest sampleOptions envEcho).res.DisconnectLatency :=
  ⟨by decide, total_is_sum_of_three sampleOptions envEcho (by decide)⟩

/-- C6 (the code departs from the claim).  The script
`[(Text, "Test"), (Binary, [0x7B])]` is not empty and the clock readings
0, 10, 11, 100, 101 are non-decreasing; the server echoes the first packet and
then closes the connection with code 1000.  `DoConnectionTest` returns a nil
error from the first `select` (the defect of C1), with
`FirstRoundtripLatency = 1` and `FullRoundtripLatency` never measured, so
`FullRoundtripLatency ≥ FirstRoundtripLatency` fails in a run the caller takes
for a success. -/
theorem nil_return_without_full_roundtrip :
    sampleOptions.Packets ≠ [] ∧
      envEarlyClose.clock.monotone ∧
      (DoConnectionTest sampleOptions envEarlyClose).err = none ∧
      (DoConnectionTest sampleOptions envEarlyClose).res.FirstRoundtripLatency = 1 ∧
      (DoConnectionTest sampleOptions envEarlyClose).res.FullRoundtripLatency = 0 ∧
      ¬ ((DoConnectionTest sampleOptions envEarlyClose).res.FullRoundtripLatency
          ≥ (DoConnectionTest sampleOptions envEarlyClose).res.FirstRoundtripLatency) :=
  ⟨by decide, by decide, by decide, by decide, by decide, by decide⟩

/-- In every run that ends in the closure-observed branch, if the clock
readings are non-decreasing in program order, then
`FullRoundtripLatency ≥ FirstRoundtripLatency ≥ 0`; such a run exists only for
a non-empty script.  Runs that return a nil error from the first `select` are
not covered. -/
theorem roundtrip_latencies_ordered (opt : TestOptions) (env : Env)
    (hexit : (DoConnectionTest opt env).exit = Exit.closureObserved)
    (hclock : env.clock.startTime ≤ env.clock.connected ∧
      env.clock.connected ≤ env.clock.firstMatch ∧
      env.clock.firstMatch ≤ env.clock.allReceived) :
    opt.Packets ≠ [] ∧
      (DoConnectionTest opt env).res.FullRoundtripLatency
        ≥ (DoConnectionTest opt env).res.FirstRoundtripLatency ∧
      (DoConnectionTest opt env).res.FirstRoundtripLatency ≥ 0 := by
  obtain ⟨hlen, hfirst⟩ := closureObserved_first opt env hexit
  obtain ⟨st1, rest, st2, _, _, _, _, _, _, hout⟩ := closureObserved_inv opt env hexit
  have hfull : (DoConnectionTest opt env).res.FullRoundtripLatency =
      env.clock.allReceived - env.clock.startTime
        - (env.clock.connected - env.clock.startTime) := by rw [hout]
  refine ⟨?_, ?_, ?_⟩
  · intro hnil
    rw [hnil] at hlen
    simp at hlen
  · rw [hfull, hfirst]
    omega
  · rw [hfirst]
    omega

/-- The round-trip latencies of the run of `envEcho` are 1 and 90. -/
theorem roundtrip_latencies_ordered_witness :
    sampleOptions.Packets ≠ [] ∧
      (DoConnectionTest sampleOptions envEcho).res.FullRoundtripLatency
        ≥ (DoConnectionTest sampleOptions envEcho).res.FirstRoundtripLatency ∧
      (DoConnectionTest sampleOptions envEcho).res.FirstRoundtripLatency ≥ 0 :=
  roundtrip_latencies_ordered sampleOptions envEcho (by decide) (by decide)

/-- C7, as stated, fails: in the run of `envEcho` (nil error after the closure
wait, strictly increasing clock readings) the result has `ConnectLatency = 10`,
`FirstRoundtripLatency = 1`, `FullRoundtripLatency = 90` and
`DisconnectLatency = 11`, so neither `ConnectLatency ≤ FirstRoundtripLatency`
nor `FullRoundtripLatency ≤ DisconnectLatency` holds. -/
theorem phases_not_nondecreasing :
    (DoConnectionTest sampleOptions envEcho).err = none ∧
      (DoConnectionTest sampleOptions envEcho).exit = Exit.closureObserved ∧
      envEcho.clock.monotone ∧
      ¬ ((DoConnectionTest sampleOptions envEcho).res.ConnectLatency
          ≤ (DoConnectionTest sampleOptions envEcho).res.FirstRoundtripLatency) ∧
      ¬ ((DoConnectionTest sampleOptions envEcho).res.FullRoundtripLatency
          ≤ (DoConnectionTest sampleOptions envEcho).res.DisconnectLatency) ∧
      ¬ ((DoConnectionTest sampleOptions envEcho).res.ConnectLatency
          ≤ (DoConnectionTest sampleOptions envEcho).res.FirstRoundtripLatency ∧
        (DoConnectionTest sampleOptions envEcho).res.FirstRoundtripLatency
          ≤ (DoConnectionTest sampleOptions envEcho).res.FullRoundtripLatency ∧
        (DoConnectionTest sampleOptions envEcho).res.FullRoundtripLatency
          ≤ (DoConnectionTest sampleOptions envEcho).res.DisconnectLatency) := by
  decide

/-- C7, amended.  In every run that ends in the closure-observed branch with
non-decreasing clock readings, each of the four phase values is non-negative
and `FirstRoundtripLatency ≤ FullRoundtripLatency`. -/
theorem phases_nonnegative (opt : TestOptions) (env : Env)
    (hexit : (DoConnectionTest opt env).exit = Exit.closureObserved)
    (hclock : env.clock.monotone) :
    0 ≤ (DoConnectionTest opt env).res.ConnectLatency ∧
      0 ≤ (DoConnectionTest opt env).res.FirstRoundtripLatency ∧
      (DoConnectionTest opt env).res.FirstRoundtripLatency
        ≤ (DoConnectionTest opt env).res.FullRoundtripLatency ∧
      0 ≤ (DoConnectionTest opt env).res.DisconnectLatency := by
  obtain ⟨_, hfirst⟩ := closureObserved_first opt env hexit
  obtain ⟨st1, rest, st2, _, _, _, _, _, _, hout⟩ := closureObserved_inv opt env hexit
  obtain ⟨c1, c2, c3, c4⟩ := hclock
  rw [hfirst]
  rw [hout]
  simp only []
  refine ⟨?_, ?_, ?_, ?_⟩ <;> omega

/-- The amended C7 at the run of `envEcho`. -/
theorem phases_nonnegative_witness :
    0 ≤ (DoConnectionTest sampleOptions envEcho).res.ConnectLatency ∧
      0 ≤ (DoConnectionTest sampleOptions envEcho).res.FirstRoundtripLatency ∧
      (DoConnectionTest sampleOptions envEcho).res.FirstRoundtripLatency
        ≤ (DoConnectionTest sampleOptions envEcho).res.FullRoundtripLatency ∧
      0 ≤ (DoConnectionTest sampleOptions envEcho).res.DisconnectLatency :=
  phases_nonnegative sampleOptions envEcho (by decide) (by decide)

/-- C8 (the code departs from the claim, and from the field comments of
`TestResult`).  In the run of `envEcho` the closure is observed 101 ns after
the start and 1 ns after the all-received instant, but the result has
`TotalDuration = 111` and `DisconnectLatency = 11`: line 130 subtracts only
`FullRoundtripLatency` from the elapsed time, so `ConnectLatency` (10 ns here)
stays in `DisconnectLatency` and is counted a second time in
`TotalDuration`. -/
theorem total_and_disconnect_include_connect :
    (DoConnectionTest sampleOptions envEcho).exit = Exit.closureObserved ∧
      envEcho.clock.closed - envEcho.clock.startTime = 101 ∧
      (DoConnectionTest sampleOptions envEcho).res.TotalDuration = 111 ∧
      envEcho.clock.closed - envEcho.clock.allReceived = 1 ∧
      (DoConnectionTest sampleOptions envEcho).res.DisconnectLatency = 11 ∧
      (DoConnectionTest sampleOptions envEcho).res.ConnectLatency = 10 := by
  decide

/-- C3, as stated, fails in its last clause: in the run of
`envTypeFlipWriteFails` the first inbound message equals packet 0 and the
second differs from packet 1 in its type, the receiver reports nothing at the
first message and "Received unexpected packet type" at the second, but the
write of packet 1 fails and `DoConnectionTest` returns the write error (lines
105 to 108), not the error of the receiver. -/
theorem mismatch_not_returned_when_write_fails :
    1 < sampleOptions.Packets.length ∧
      envTypeFlipWriteFails.early ++ envTypeFlipWriteFails.wait1 =
        (sampleOptions.Packets.take 1).map echo
          ++ [ReadResult.message TextMessage [123]] ∧
      sampleOptions.Packets[1]? = some ⟨BinaryMessage, [123]⟩ ∧
      (receiverRun sampleOptions envTypeFlipWriteFails.clock 10 Receiver.start
        ((sampleOptions.Packets.take 1).map echo)).done = none ∧
      (receiverRun sampleOptions envTypeFlipWriteFails.clock 10 Receiver.start
        (envTypeFlipWriteFails.early ++ envTypeFlipWriteFails.wait1)).done
          = some errPacketType ∧
      (DoConnectionTest sampleOptions envTypeFlipWriteFails).err
        = some (GoError.errorString "write: broken pipe") ∧
      (DoConnectionTest sampleOptions envTypeFlipWriteFails).err ≠ some errPacketType ∧
      (DoConnectionTest sampleOptions envTypeFlipWriteFails).exit = Exit.sendFailed :=
  ⟨by decide, rfl, rfl, by decide, by decide, by decide, by decide, by decide⟩

/-- C3, amended.  The script has more than `i` packets, the server echoes the
first `i` correctly and the next inbound message `(mType, message)` differs
from packet `i`.  Then the receiver has reported nothing and is still in its
loop after each of the first `i` messages; it fails when it handles message
`i`, with "Received unexpected packet type" when the type differs and with
"Received unexpected packet payload" when the type is equal and the payload
differs; and, provided dialing and every write of a packet succeed and these
messages are handled before the receive timeout fires, `DoConnectionTest`
returns that error. -/
theorem mismatch_reported (opt : TestOptions) (env : Env) (i : Nat) (mType : Int)
    (message : List Byte) (rest : List ReadResult)
    (hi : i < opt.Packets.length)
    (hdiff : opt.Packets[i] ≠ ⟨mType, message⟩)
    (hdial : env.dialErr = none)
    (hwrite : ∀ j, j < opt.Packets.length → env.writeErr j = none)
    (hin : env.early ++ env.wait1
      = (opt.Packets.take i).map echo ++ ReadResult.message mType message :: rest) :
    (∀ k, k ≤ i →
      (receiverRun opt env.clock (env.clock.connected - env.clock.startTime) Receiver.start
        ((opt.Packets.take k).map echo)).done = none ∧
      (receiverRun opt env.clock (env.clock.connected - env.clock.startTime) Receiver.start
        ((opt.Packets.take k).map echo)).running = true ∧
      (receiverRun opt env.clock (env.clock.connected - env.clock.startTime) Receiver.start
        ((opt.Packets.take k).map echo)).index = k) ∧
    (receiverRun opt env.clock (env.clock.connected - env.clock.startTime) Receiver.start
        ((opt.Packets.take i).map echo ++ [ReadResult.message mType message])).done
      = some (if opt.Packets[i].Type_ ≠ mType then errPacketType else errPacketPayload) ∧
    (receiverRun opt env.clock (env.clock.connected - env.clock.startTime) Receiver.start
        ((opt.Packets.take i).map echo ++ [ReadResult.message mType message])).running
      = false ∧
    (DoConnectionTest opt env).err
      = some (if opt.Packets[i].Type_ ≠ mType then errPacketType else errPacketPayload) ∧
    (opt.Packets[i].Type_ = mType → opt.Packets[i].Payload ≠ message) := by
  have hnext : receiverNext opt env.clock (env.clock.connected - env.clock.startTime)
      (echoed opt env.clock (env.clock.connected - env.clock.startTime) i)
      (ReadResult.message mType message)
      = Receiver.fail
          { echoed opt env.clock (env.clock.connected - env.clock.startTime) i with
            index := i + 1, accessed := List.range i ++ [i] }
          (if opt.Packets[i].Type_ ≠ mType then errPacketType else errPacketPayload) := by
    rw [receiverNext, if_pos (show (echoed opt env.clock
      (env.clock.connected - env.clock.startTime) i).running = true from rfl)]
    exact receiverStep_mismatch opt env.clock _
      (echoed opt env.clock (env.clock.connected - env.clock.startTime) i)
      mType message hi hdiff
  refine ⟨?_, ?_, ?_, ?_, ?_⟩
  · intro k hk
    rw [receiverRun_echo opt env.clock _ k (le_trans hk (le_of_lt hi))]
    exact ⟨rfl, rfl, rfl⟩
  · rw [receiverRun_snoc, receiverRun_echo opt env.clock _ i (le_of_lt hi), hnext]
    rfl
  · rw [receiverRun_snoc, receiverRun_echo opt env.clock _ i (le_of_lt hi), hnext]
    rfl
  · have h := receiverReport_of_stream opt env i hi (ReadResult.message mType message) rest
      (by rw [hnext]; rfl) hdial (sendPackets_ok env.writeErr _ hwrite) hin
    rw [h.1, hnext]
    rfl
  · intro ht hp
    apply hdiff
    cases hq : opt.Packets[i] with
    | mk t q => rw [hq] at ht hp; simp at ht hp; rw [ht, hp]

/-- The amended C3 at the run of `envTypeFlip`: the second packet comes back
with the type flipped from binary to text, and the run returns the type
error. -/
theorem mismatch_reported_witness :
    (DoConnectionTest sampleOptions envTypeFlip).err = some errPacketType :=
  (mismatch_reported sampleOptions envTypeFlip 1 TextMessage [123] [] (by decide) (by decide)
    rfl (fun _ _ => rfl) rfl).2.2.2.1

/-- The receiver along a stream that echoes the whole script and then delivers
one more message. -/
theorem receiverRun_take_extra (opt : TestOptions) (clock : Clock) (cl : Int) (mType : Int)
    (message : List Byte) (k : Nat) :
    receiverRun opt clock cl Receiver.start
        ((opt.Packets.map echo ++ [ReadResult.message mType message]).take k) =
      if k ≤ opt.Packets.length then echoed opt clock cl k
      else (echoed opt clock cl opt.Packets.length).fail errMorePackets := by
  have hnext : receiverNext opt clock cl (echoed opt clock cl opt.Packets.length)
      (ReadResult.message mType message)
      = (echoed opt clock cl opt.Packets.length).fail errMorePackets := by
    rw [receiverNext, if_pos (show (echoed opt clock cl opt.Packets.length).running = true
      from rfl)]
    exact receiverStep_extra opt clock cl _ mType message (le_refl _)
  have h := receiverRun_take_stream opt clock cl opt.Packets.length (le_refl _)
    (ReadResult.message mType message) [] (by rw [hnext]; rfl) k
  rw [List.take_length, hnext] at h
  exact h

theorem done_of_ready_extra (opt : TestOptions) (clock : Clock) (cl : Int) (mType : Int)
    (message : List Byte) (k : Nat)
    (h : doneReady (receiverRun opt clock cl Receiver.start
        ((opt.Packets.map echo ++ [ReadResult.message mType message]).take k)) = true) :
    (receiverRun opt clock cl Receiver.start
        ((opt.Packets.map echo ++ [ReadResult.message mType message]).take k)).done
      = some errMorePackets := by
  rw [receiverRun_take_extra] at h ⊢
  by_cases hk : k ≤ opt.Packets.length
  · rw [if_pos hk, doneReady_echoed] at h
    exact absurd h (by simp)
  · rw [if_neg hk]
    rfl

/-- C4.  The inbound stream is the whole script echoed correctly, followed by
one further message.  Then the receiver makes exactly `len(S)` successful
matches (after the echoes its index is `len(S)`, it is still in its loop and
has reported nothing), it fails at the further message with "Received more
packets that expected", and `DoConnectionTest` returns a non-nil error. -/
theorem extra_message_reported (opt : TestOptions) (env : Env) (mType : Int)
    (message : List Byte)
    (hin : env.early ++ env.wait1 ++ env.wait2
      = opt.Packets.map echo ++ [ReadResult.message mType message]) :
    (receiverRun opt env.clock (env.clock.connected - env.clock.startTime) Receiver.start
        (opt.Packets.map echo)).index = opt.Packets.length ∧
    (receiverRun opt env.clock (env.clock.connected - env.clock.startTime) Receiver.start
        (opt.Packets.map echo)).running = true ∧
    (receiverRun opt env.clock (env.clock.connected - env.clock.startTime) Receiver.start
        (opt.Packets.map echo)).done = none ∧
    (receiverRun opt env.clock (env.clock.connected - env.clock.startTime) Receiver.start
        (opt.Packets.map echo ++ [ReadResult.message mType message])).index
      = opt.Packets.length ∧
    (receiverRun opt env.clock (env.clock.connected - env.clock.startTime) Receiver.start
        (opt.Packets.map echo ++ [ReadResult.message mType message])).done
      = some errMorePackets ∧
    (DoConnectionTest opt env).err ≠ none := by
  have hecho := receiverRun_echo opt env.clock (env.clock.connected - env.clock.startTime)
    opt.Packets.length (le_refl _)
  rw [List.take_length] at hecho
  have hall := receiverRun_take_extra opt env.clock
    (env.clock.connected - env.clock.startTime) mType message (opt.Packets.length + 1)
  rw [List.take_of_length_le (by simp), if_neg (by omega)] at hall
  refine ⟨by rw [hecho]; rfl, by rw [hecho]; rfl, by rw [hecho]; rfl, by rw [hall]; rfl,
    by rw [hall]; rfl, ?_⟩
  have hs0 := Receiver.sound_run opt env.clock (env.clock.connected - env.clock.startTime)
    env.early Receiver.start (Receiver.sound_start _ _ _)
  cases hdial : env.dialErr with
  | some err =>
    have : DoConnectionTest opt env =
        { res := ⟨0, 0, 0, 0, 0⟩, err := some err, exit := Exit.dialFailed } := by
      unfold DoConnectionTest
      simp [hdial]
    rw [this]
    simp
  | none =>
    cases hsend : sendPackets env.writeErr 0 opt.Packets with
    | some err =>
      have : DoConnectionTest opt env =
          leave (receiverRun opt env.clock (env.clock.connected - env.clock.startTime)
            Receiver.start env.early)
            ⟨0, env.clock.connected - env.clock.startTime, 0, 0, 0⟩ (some err)
            Exit.sendFailed := by
        unfold DoConnectionTest
        simp [hdial, hsend]
      rw [this, leave_sound opt env.clock _ _ hs0]
      simp
    | none =>
      rcases hfs : firstSelect
        (receiverNext opt env.clock (env.clock.connected - env.clock.startTime)) env.pickDone
        (receiverRun opt env.clock (env.clock.connected - env.clock.startTime)
          Receiver.start env.early) env.wait1 with ⟨c, st1, rest1⟩
      obtain ⟨n, hn, h1, h2, h3, _, _⟩ :=
        firstSelect_observed opt env.clock _ _ _ _ _ _ _ hfs
      have hs1 : Receiver.Sound opt env.clock
          (env.clock.connected - env.clock.startTime) st1 := by
        rw [h1]
        exact Receiver.sound_run opt env.clock _ _ _ (Receiver.sound_start _ _ _)
      have h1all : st1 = receiverRun opt env.clock
          (env.clock.connected - env.clock.startTime) Receiver.start
          ((opt.Packets.map echo ++ [ReadResult.message mType message]).take
            (env.early.length + n)) := by
        rw [← hin, List.take_append_of_le_length (by simp; omega)]
        exact h1
      cases c with
      | done =>
        have : DoConnectionTest opt env =
            leave st1 ⟨0, env.clock.connected - env.clock.startTime, 0, 0, 0⟩ st1.done
              Exit.receiverReport := by
          unfold DoConnectionTest
          simp [hdial, hsend, hfs]
        rw [this, leave_sound opt env.clock _ _ hs1]
        have hd := h3 rfl
        rw [h1all] at hd
        have := done_of_ready_extra opt env.clock _ mType message _ hd
        rw [← h1all] at this
        simp [this]
      | timeout =>
        have : DoConnectionTest opt env =
            leave st1 ⟨0, env.clock.connected - env.clock.startTime, 0, 0, 0⟩
              (some errReceiveTimeout) Exit.receiveTimeout := by
          unfold DoConnectionTest
          simp [hdial, hsend, hfs]
        rw [this, leave_sound opt env.clock _ _ hs1]
        simp
      | received =>
        cases hclose : env.writeErr opt.Packets.length with
        | some err =>
          have : DoConnectionTest opt env =
              leave st1
                ⟨0, env.clock.connected - env.clock.startTime, 0,
                  env.clock.allReceived - env.clock.startTime
                    - (env.clock.connected - env.clock.startTime), 0⟩
                (some err) Exit.closeSendFailed := by
            unfold DoConnectionTest
            simp [hdial, hsend, hfs, hclose]
          rw [this, leave_sound opt env.clock _ _ hs1]
          simp
        | none =>
          cases hsel2 : secondSelect
            (receiverNext opt env.clock (env.clock.connected - env.clock.startTime)) st1
            (rest1 ++ env.wait2) with
          | none =>
            have : DoConnectionTest opt env =
                leave st1
                  ⟨0, env.clock.connected - env.clock.startTime, 0,
                    env.clock.allReceived - env.clock.startTime
                      - (env.clock.connected - env.clock.startTime), 0⟩
                  (some errClosureTimeout) Exit.closureTimeout := by
              unfold DoConnectionTest
              simp [hdial, hsend, hfs, hclose, hsel2]
            rw [this, leave_sound opt env.clock _ _ hs1]
            simp
          | some st2 =>
            have hsel2b := hsel2
            rw [h1, h2] at hsel2b
            obtain ⟨k, hk1, hk2⟩ := secondSelect_observed opt env.clock _ _ _ _ _ _ hsel2b
            have hs2 : Receiver.Sound opt env.clock
                (env.clock.connected - env.clock.startTime) st2 := by
              rw [hk1]
              exact Receiver.sound_run opt env.clock _ _ _ (Receiver.sound_start _ _ _)
            have hexit : (DoConnectionTest opt env).err = st2.done := by
              unfold DoConnectionTest
              simp [hdial, hsend, hfs, hclose, hsel2, leave, hs2.noFault]
            rw [hexit]
            rw [hin] at hk1
            rw [hk1] at hk2
            have := done_of_ready_extra opt env.clock _ mType message _ hk2
            rw [← hk1] at this
            simp [this]

/-- C4 at the run of `envExtra`. -/
theorem extra_message_reported_witness :
    (DoConnectionTest sampleOptions envExtra).err ≠ none :=
  (extra_message_reported sampleOptions envExtra TextMessage payloadTest rfl).2.2.2.2.2

/-- C2.  The script is not empty, dialing and every write succeed, the
inbound stream handled up to the end of the first wait is exactly the packets
of the script in order, and what follows, after the close message has been
written, is a normal-closure notification.  Then `DoConnectionTest` returns a
nil error, from the closure-observed branch. -/
theorem echo_run_succeeds (opt : TestOptions) (env : Env) (text : String)
    (hne : opt.Packets ≠ [])
    (hdial : env.dialErr = none)
    (hwrite : ∀ j, j ≤ opt.Packets.length → env.writeErr j = none)
    (hin : env.early ++ env.wait1 = opt.Packets.map echo)
    (hclose : env.wait2 = [ReadResult.failure (GoError.closeError CloseNormalClosure text)]) :
    (DoConnectionTest opt env).err = none ∧
      (DoConnectionTest opt env).exit = Exit.closureObserved := by
  have hpos : 0 < opt.Packets.length := List.length_pos.mpr hne
  have hlen : env.early.length + env.wait1.length = opt.Packets.length := by
    have := congrArg List.length hin
    simpa using this
  rcases hfs : firstSelect
    (receiverNext opt env.clock (env.clock.connected - env.clock.startTime)) env.pickDone
    (receiverRun opt env.clock (env.clock.connected - env.clock.startTime)
      Receiver.start env.early) env.wait1 with ⟨c, st1, rest1⟩
  obtain ⟨n, hn, h1, h2, h3, h4, h5⟩ := firstSelect_observed opt env.clock _ _ _ _ _ _ _ hfs
  rw [hin, ← List.map_take,
    receiverRun_echo opt env.clock _ (env.early.length + n) (by omega)] at h1
  have hc : c = Ready.received ∧ n = env.wait1.length := by
    cases c with
    | done =>
      have := h3 rfl
      rw [h1, doneReady_echoed] at this
      exact absurd this (by simp)
    | timeout =>
      obtain ⟨hn2, _, hr⟩ := h5 rfl
      rw [h1] at hr
      simp only [echoed, decide_eq_false_iff_not] at hr
      exact absurd ⟨by omega, by omega⟩ hr
    | received =>
      have := h4 rfl
      rw [h1] at this
      simp only [echoed, decide_eq_true_eq] at this
      exact ⟨rfl, by omega⟩
  obtain ⟨hc1, hc2⟩ := hc
  subst hc1
  have hrest : rest1 = [] := by
    rw [h2, hc2]
    simp
  have hidx : env.early.length + n = opt.Packets.length := by omega
  rw [hidx] at h1
  have hsel2 : secondSelect
      (receiverNext opt env.clock (env.clock.connected - env.clock.startTime)) st1
      (rest1 ++ env.wait2)
      = some (echoed opt env.clock (env.clock.connected - env.clock.startTime)
          opt.Packets.length).stop := by
    rw [hrest, hclose, h1]
    simp [secondSelect, doneReady_echoed, receiverNext, receiverStep, isNormalClosure, echoed,
      Receiver.stop, doneReady]
  unfold DoConnectionTest
  simp [hdial, sendPackets_ok env.writeErr _ (fun j hj => hwrite j (le_of_lt hj)), hfs,
    hwrite _ (le_refl _), hsel2, leave, Receiver.stop, echoed]

/-- C2 at the script `[(Text, "Test"), (Binary, [0x7B])]`. -/
theorem echo_run_succeeds_witness :
    (DoConnectionTest sampleOptions envEcho).err = none ∧
      (DoConnectionTest sampleOptions envEcho).exit = Exit.closureObserved :=
  echo_run_succeeds sampleOptions envEcho "" (by decide) rfl (fun _ _ => rfl) rfl rfl

/-- C9.  Along every inbound sequence `reads ++ [r]`: the index starts at 0;
handling `r` never decreases it and raises it by at most 1; it never exceeds
`len(S)`; the indices at which `opt.Packets` has been accessed are
`0, 1, ..., index - 1`, each exactly once and in this order, all of them below
`len(S)`, and no access is out of range; a message handled while the index is
`k < len(S)` is compared with `S[k]` (the receiver stays in its loop exactly
when the two are equal); and as long as the receiver is in its loop the
messages it has accepted are `S[0], ..., S[index - 1]` in order. -/
theorem index_invariants (opt : TestOptions) (clock : Clock) (cl : Int)
    (reads : List ReadResult) (r : ReadResult) :
    (receiverRun opt clock cl Receiver.start []).index = 0 ∧
    (receiverRun opt clock cl Receiver.start reads).index
      ≤ (receiverRun opt clock cl Receiver.start (reads ++ [r])).index ∧
    (receiverRun opt clock cl Receiver.start (reads ++ [r])).index
      ≤ (receiverRun opt clock cl Receiver.start reads).index + 1 ∧
    (receiverRun opt clock cl Receiver.start (reads ++ [r])).index ≤ opt.Packets.length ∧
    (receiverRun opt clock cl Receiver.start (reads ++ [r])).accessed
      = List.range (receiverRun opt clock cl Receiver.start (reads ++ [r])).index ∧
    (∀ j ∈ (receiverRun opt clock cl Receiver.start (reads ++ [r])).accessed,
      j < opt.Packets.length) ∧
    (receiverRun opt clock cl Receiver.start (reads ++ [r])).fault = none ∧
    (∀ mType message, (receiverRun opt clock cl Receiver.start reads).running = true →
      r = ReadResult.message mType message →
      (receiverRun opt clock cl Receiver.start reads).index < opt.Packets.length →
      ((receiverRun opt clock cl Receiver.start (reads ++ [r])).running = true ↔
        opt.Packets[(receiverRun opt clock cl Receiver.start reads).index]?
          = some ⟨mType, message⟩)) ∧
    ((receiverRun opt clock cl Receiver.start (reads ++ [r])).running = true →
      reads ++ [r] = (opt.Packets.take
        (receiverRun opt clock cl Receiver.start (reads ++ [r])).index).map echo) := by
  have hs := Receiver.sound_run opt clock cl (reads ++ [r]) Receiver.start
    (Receiver.sound_start _ _ _)
  have hsb := Receiver.sound_run opt clock cl reads Receiver.start
    (Receiver.sound_start _ _ _)
  have hidx := receiverNext_index opt clock cl
    (receiverRun opt clock cl Receiver.start reads) r
  rw [← receiverRun_snoc] at hidx
  refine ⟨rfl, hidx.1, hidx.2, hs.indexLe, hs.accessedEq, ?_, hs.noFault, ?_,
    receiverRun_running_echo opt clock cl (reads ++ [r])⟩
  · intro j hj
    rw [hs.accessedEq, List.mem_range] at hj
    exact lt_of_lt_of_le hj hs.indexLe
  · intro mType message hrun hr hlt
    subst hr
    rw [receiverRun_snoc, receiverNext, if_pos hrun, List.getElem?_eq_getElem hlt]
    constructor
    · intro h
      obtain ⟨_, he, _⟩ := receiverStep_running_inv opt clock cl _ _ h
      simp only [echo, ReadResult.message.injEq] at he
      cases hq : opt.Packets[(receiverRun opt clock cl Receiver.start reads).index] with
      | mk t q =>
        rw [hq] at he
        simp only [] at he
        rw [he.1, he.2]
    · intro h
      have hm : opt.Packets[(receiverRun opt clock cl Receiver.start reads).index]
          = ⟨mType, message⟩ := Option.some.inj h
      have hrec : (receiverRun opt clock cl Receiver.start reads).received = false := by
        cases hrc : (receiverRun opt clock cl Receiver.start reads).received with
        | false => rfl
        | true => have := (hsb.receivedAll hrc).1; omega
      rw [receiverStep_match opt clock cl _ mType message hlt hrec (by rw [hm]) (by rw [hm])]
      exact hrun

/-- C10.  Along every inbound sequence `reads ++ [r]`: `close(received)` has
been executed at most once, and the receiver never panics, so it is never
executed on a closed channel; once closed, `received` stays closed; handling
`r` closes it exactly when the receiver is in its loop, `r` is a message equal
to the expected packet, and this match brings the index to `len(S)`; and for
the empty script `received` is never closed and no run of `DoConnectionTest`
gets as far as the Closing phase. -/
theorem received_signal (opt : TestOptions) (clock : Clock) (cl : Int)
    (reads : List ReadResult) (r : ReadResult) :
    (receiverRun opt clock cl Receiver.start (reads ++ [r])).closes ≤ 1 ∧
    ((receiverRun opt clock cl Receiver.start (reads ++ [r])).received = true ↔
      (receiverRun opt clock cl Receiver.start (reads ++ [r])).closes = 1) ∧
    (receiverRun opt clock cl Receiver.start (reads ++ [r])).fault = none ∧
    (receiverRun opt clock cl Receiver.start []).received = false ∧
    ((receiverRun opt clock cl Receiver.start reads).received = true →
      (receiverRun opt clock cl Receiver.start (reads ++ [r])).received = true) ∧
    (((receiverRun opt clock cl Receiver.start reads).received = false ∧
        (receiverRun opt clock cl Receiver.start (reads ++ [r])).received = true) ↔
      ((receiverRun opt clock cl Receiver.start reads).running = true ∧
        (receiverRun opt clock cl Receiver.start reads).index + 1 = opt.Packets.length ∧
        ∃ mType message, r = ReadResult.message mType message ∧
          opt.Packets[(receiverRun opt clock cl Receiver.start reads).index]?
            = some ⟨mType, message⟩)) ∧
    (opt.Packets = [] →
      (receiverRun opt clock cl Receiver.start (reads ++ [r])).received = false) ∧
    (opt.Packets = [] → ∀ env : Env, (DoConnectionTest opt env).exit.reachedClosing = false) := by
  have hs := Receiver.sound_run opt clock cl (reads ++ [r]) Receiver.start
    (Receiver.sound_start _ _ _)
  have hsb := Receiver.sound_run opt clock cl reads Receiver.start
    (Receiver.sound_start _ _ _)
  refine ⟨?_, ?_, hs.noFault, rfl, ?_, ?_, ?_, ?_⟩
  · rw [hs.closesEq]
    split <;> simp
  · rw [hs.closesEq]
    constructor
    · intro h
      rw [if_pos h]
    · intro h
      by_contra hn
      rw [if_neg hn] at h
      exact absurd h (by simp)
  · intro h
    rw [receiverRun_snoc]
    exact receiverNext_received opt clock cl _ r h
  · constructor
    · rintro ⟨h0, h1⟩
      have hall := (hs.receivedAll h1).1
      rw [receiverRun_snoc] at h1 hall
      have hrun2 := receiverNext_raise_running opt clock cl _ r h0 h1
      have hrun : (receiverRun opt clock cl Receiver.start reads).running = true := by
        cases hx : (receiverRun opt clock cl Receiver.start reads).running with
        | true => rfl
        | false =>
          rw [receiverNext, hx] at h1
          simp [h0] at h1
      rw [receiverNext, if_pos hrun] at hrun2 hall
      obtain ⟨hlt, he, hidx⟩ := receiverStep_running_inv opt clock cl _ r hrun2
      refine ⟨hrun, by omega, _, _, he, ?_⟩
      rw [List.getElem?_eq_getElem hlt]
    · rintro ⟨hrun, hlen, mType, message, hr, hget⟩
      subst hr
      have hlt : (receiverRun opt clock cl Receiver.start reads).index
          < opt.Packets.length := by omega
      rw [List.getElem?_eq_getElem hlt] at hget
      have hm := Option.some.inj hget
      have hrec : (receiverRun opt clock cl Receiver.start reads).received = false := by
        cases hrc : (receiverRun opt clock cl Receiver.start reads).received with
        | false => rfl
        | true => have := (hsb.receivedAll hrc).1; omega
      refine ⟨hrec, ?_⟩
      rw [receiverRun_snoc, receiverNext, if_pos hrun,
        receiverStep_match opt clock cl _ mType message hlt hrec (by rw [hm]) (by rw [hm])]
      simp [hlen]
  · intro hempty
    cases hrc : (receiverRun opt clock cl Receiver.start (reads ++ [r])).received with
    | false => rfl
    | true =>
      obtain ⟨ha, hb⟩ := hs.receivedAll hrc
      rw [hempty] at ha
      simp at ha
      omega
  · intro hempty env
    cases hx : (DoConnectionTest opt env).exit.reachedClosing with
    | false => rfl
    | true =>
      have := reachedClosing_pos opt env hx
      rw [hempty] at this
      simp at this

end StressTest
